import Mathlib

/-!
Verification of the gateway-mediated trust and session model of the
lms-microservices-platform repository.

The definitions below are a shallow embedding of the TypeScript source:

* `src/packages/env-validator/src/index.ts` (and its variant) — `jwtEnvSchema`,
  `validateAuthServiceEnv`;
* the auth-service jwt library (two variants in the repository, both pinning
  `algorithms: ['HS256']` in `verifyToken`; the newer one embeds a
  `type: 'access' | 'refresh'` claim) — `generateAccessToken`,
  `generateRefreshToken`, `generateTokenPair`, `verifyToken`;
* the gateway `authMiddleware` (`jwt.verify(token, JWT_SECRET)` with no
  `algorithms` option, `JWT_SECRET = process.env.JWT_SECRET || 'fallback-secret-key'`)
  and the `onProxyReq` hooks of `src/apps/api-gateway/src/index.ts`;
* the auth-service controllers `register`, `login`, `refresh`, `logout`
  (both the `src/services/auth-service/src/controllers/*.ts` variants and the
  refactored variants elsewhere in the repository, where they differ);
* the course-service `getInstructorId` / `getInstructorCourses` handlers and the
  downstream `requireAuth` middleware.

Machine-level conventions of the embedding: JWTs are modelled symbolically as
records carrying the signed claims, the declared algorithm, the key used at
signing and the expiry; signature verification succeeds exactly when the
verifier's key equals the signing key and the declared algorithm is among the
allowed ones (the functional contract of HMAC signatures).  `bcrypt.hash` is
modelled as an injective tagging of the password, so `bcrypt.compare`
succeeds exactly when the hash was derived from the compared password.
Database tables are lists of rows; Redis is an association list.  The zod
email-format regex is not modelled: all requests considered carry
syntactically well-formed email addresses (every concrete input used below
would pass `z.string().email()`).
-/

namespace LMS

/-! ## Roles and claims -/

/-- The closed role enumeration of the User table (Prisma enum). -/
inductive Role where
  | STUDENT
  | INSTRUCTOR
  | ADMIN
deriving DecidableEq, Repr

/-- The string form of a role, as it travels inside JWT claims and headers. -/
def Role.str : Role → String
  | .STUDENT => "STUDENT"
  | .INSTRUCTOR => "INSTRUCTOR"
  | .ADMIN => "ADMIN"

/-- Signing algorithms relevant to the jsonwebtoken calls in the source:
the HMAC family plus the unsigned `none` algorithm. -/
inductive Alg where
  | HS256
  | HS384
  | HS512
  | noneAlg
deriving DecidableEq, Repr

/-- The `type` claim embedded by the newer jwt library
(`{ ...payload, type: 'access' }` / `{ ...payload, type: 'refresh' }`). -/
inductive TokenKind where
  | access
  | refresh
deriving DecidableEq, Repr

/-- The claims passed to `generateTokenPair`: `{ userId, email, role }`. -/
structure Claims where
  userId : String
  email : String
  role : Role
deriving DecidableEq, Repr

/-- A symbolic signed JWT: the claims, the optional `type` claim (the older
jwt-library variant signs tokens without it), the declared algorithm, the
HMAC key used at signing, and the `exp` timestamp (epoch seconds). -/
structure Jwt where
  claims : Claims
  type : Option TokenKind
  alg : Alg
  key : String
  exp : Nat
deriving DecidableEq, Repr

/-- The decoded payload returned by a successful `jwt.verify`. -/
structure Payload where
  userId : String
  email : String
  role : Role
  type : Option TokenKind
deriving DecidableEq, Repr

/-- The payload a token decodes to. -/
def Jwt.payload (t : Jwt) : Payload :=
  ⟨t.claims.userId, t.claims.email, t.claims.role, t.type⟩

/-! ## jsonwebtoken semantics -/

/-- jsonwebtoken's default `algorithms` list when the caller supplies none and
the key is a plain string secret: every HMAC variant is accepted. -/
def defaultHmacAlgs : List Alg := [Alg.HS256, Alg.HS384, Alg.HS512]

/-- `jwt.verify(token, secret, { algorithms })`.  A token declaring `none` is
always rejected when a secret is supplied; otherwise the declared algorithm
must be in the allowed list (the caller's list, or jsonwebtoken's HMAC
default when the caller passes no `algorithms` option), the signature must
check out against `secret`, and the token must be unexpired. -/
def jwtVerify (tok : Jwt) (secret : String) (algorithms : Option (List Alg))
    (now : Nat) : Option Payload :=
  if tok.alg = Alg.noneAlg then none
  else if tok.alg ∈ algorithms.getD defaultHmacAlgs ∧ tok.key = secret ∧ now < tok.exp
  then some tok.payload
  else none

/-- `JWT_ACCESS_EXPIRY` default `'15m'`, in seconds. -/
def accessTtlSeconds : Nat := 15 * 60

/-- `JWT_REFRESH_EXPIRY` default `'7d'`, in seconds; also the refresh-row
expiry the controllers compute with `setDate(getDate() + 7)`. -/
def refreshTtlSeconds : Nat := 7 * 24 * 60 * 60

/-- `generateAccessToken`: signs `{ ...payload, type: 'access' }` with
`algorithm: 'HS256'` and a 15-minute expiry. -/
def generateAccessToken (c : Claims) (secret : String) (now : Nat) : Jwt :=
  ⟨c, some TokenKind.access, Alg.HS256, secret, now + accessTtlSeconds⟩

/-- `generateRefreshToken`: signs `{ ...payload, type: 'refresh' }` with
`algorithm: 'HS256'` and a 7-day expiry. -/
def generateRefreshToken (c : Claims) (secret : String) (now : Nat) : Jwt :=
  ⟨c, some TokenKind.refresh, Alg.HS256, secret, now + refreshTtlSeconds⟩

/-- `generateTokenPair`: the access/refresh pair. -/
def generateTokenPair (c : Claims) (secret : String) (now : Nat) : Jwt × Jwt :=
  (generateAccessToken c secret now, generateRefreshToken c secret now)

/-- The auth-service `verifyToken`: `jwt.verify(token, secret, { algorithms:
['HS256'] })` wrapped in try/catch, returning the payload or null.  Both jwt
library variants in the repository pin the algorithm list this way. -/
def verifyToken (tok : Jwt) (secret : String) (now : Nat) : Option Payload :=
  jwtVerify tok secret (some [Alg.HS256]) now

/-! ## Stores: User table, RefreshToken table, Redis session cache -/

/-- A row of the User table. -/
structure User where
  id : String
  email : String
  password : String
  name : String
  role : Role
deriving DecidableEq, Repr

/-- A row of the RefreshToken table (`id`, unique `token` string, owning
`userId`, `expiresAt`). -/
structure RefreshRow where
  rowId : Nat
  token : Jwt
  userId : String
  expiresAt : Nat
deriving DecidableEq, Repr

/-- The session blob `setSession` writes to Redis. -/
structure Session where
  email : String
  role : Role
  stampedAt : Nat
deriving DecidableEq, Repr

/-- The persistent state the auth service operates on: the User table, the
RefreshToken table, the Redis session cache (keyed by user id), and a counter
supplying fresh database-generated ids. -/
structure AuthState where
  users : List User
  refreshTokens : List RefreshRow
  sessions : List (String × Session)
  nextId : Nat
deriving DecidableEq, Repr

/-- `prisma.user.findUnique({ where: { email } })`. -/
def findUserByEmail (st : AuthState) (email : String) : Option User :=
  st.users.find? (fun u => u.email == email)

/-- `prisma.user.findUnique({ where: { id } })` (the `include: { user: true }`
join of the refresh lookup). -/
def findUserById (st : AuthState) (uid : String) : Option User :=
  st.users.find? (fun u => u.id == uid)

/-- `prisma.refreshToken.findUnique({ where: { token } })`. -/
def findRefreshByToken (st : AuthState) (tok : Jwt) : Option RefreshRow :=
  st.refreshTokens.find? (fun r => r.token == tok)

/-- `prisma.refreshToken.delete({ where: { id } })`. -/
def deleteRefreshById (st : AuthState) (i : Nat) : AuthState :=
  { st with refreshTokens := st.refreshTokens.filter (fun r => r.rowId != i) }

/-- `prisma.refreshToken.deleteMany({ where: { userId } })`. -/
def deleteRefreshByUser (st : AuthState) (uid : String) : AuthState :=
  { st with refreshTokens := st.refreshTokens.filter (fun r => r.userId != uid) }

/-- `prisma.refreshToken.create({ data: { token, userId, expiresAt } })`. -/
def insertRefresh (st : AuthState) (tok : Jwt) (uid : String) (expiresAt : Nat) :
    AuthState :=
  { st with
      refreshTokens := st.refreshTokens ++ [⟨st.nextId, tok, uid, expiresAt⟩]
      nextId := st.nextId + 1 }

/-- `setSession(userId, blob)`: `SETEX` overwrites the existing entry. -/
def setSessionOp (st : AuthState) (uid : String) (s : Session) : AuthState :=
  { st with sessions := (uid, s) :: st.sessions.filter (fun p => p.1 != uid) }

/-- `deleteSession(userId)`. -/
def deleteSessionOp (st : AuthState) (uid : String) : AuthState :=
  { st with sessions := st.sessions.filter (fun p => p.1 != uid) }

/-- `getSession(userId)`. -/
def getSessionOp (st : AuthState) (uid : String) : Option Session :=
  (st.sessions.find? (fun p => p.1 == uid)).map Prod.snd

/-! ## bcrypt -/

/-- `bcrypt.hash(password, saltRounds)`, modelled as an injective tagging of
the password (the functional contract the controllers rely on). -/
def bcryptHash (password : String) : String :=
  "bcrypt-hash:" ++ password

/-- `bcrypt.compare(password, hash)`: succeeds exactly when the hash was
derived from the compared password. -/
def bcryptCompare (password hash : String) : Bool :=
  hash == bcryptHash password

/-! ## Response envelope -/

/-- The public projection of a User returned by register/login (the password
hash is never included: the controllers `select` / rebuild the object without
it). -/
structure PublicUser where
  id : String
  email : String
  name : String
  role : Role
deriving DecidableEq, Repr

/-- The `data` member of the response envelope. -/
inductive RespData where
  | nullData
  | authPayload (user : PublicUser) (accessTok refreshTok : Jwt)
  | tokenPair (accessTok refreshTok : Jwt)
  | coursesFor (instructorId : String)
deriving DecidableEq, Repr

/-- The `ApiResponse` envelope `{ success, code, message, data, trace_id }`. -/
structure ApiResponse where
  success : Bool
  code : Nat
  message : String
  data : RespData
  traceId : String
deriving DecidableEq, Repr

/-! ## Auth service: register -/

/-- The raw register request body (the optional `role` arrives as a string). -/
structure RegisterBody where
  email : String
  password : String
  name : String
  role? : Option String
deriving DecidableEq, Repr

/-- The validated output of the register schema. -/
structure RegisterData where
  email : String
  password : String
  name : String
  role : Role
deriving DecidableEq, Repr

/-- The `role` member of `registerSchema` in
`src/services/auth-service/src/controllers/register.controller.ts`:
`z.enum(['STUDENT', 'INSTRUCTOR', 'ADMIN']).default('STUDENT')`. -/
def parseRoleV1 : Option String → Option Role
  | none => some Role.STUDENT
  | some "STUDENT" => some Role.STUDENT
  | some "INSTRUCTOR" => some Role.INSTRUCTOR
  | some "ADMIN" => some Role.ADMIN
  | some _ => none

/-- The `role` member of the refactored register schema (the variant whose
comment states that ADMIN may only be created by an existing admin, never via
self-registration): `z.enum(['STUDENT', 'INSTRUCTOR']).default('STUDENT')`. -/
def parseRoleV2 : Option String → Option Role
  | none => some Role.STUDENT
  | some "STUDENT" => some Role.STUDENT
  | some "INSTRUCTOR" => some Role.INSTRUCTOR
  | some _ => none

/-- `registerSchema.parse` of register.controller.ts: `z.string().email()`
(format check not modelled, see the file header), `z.string().min(8)`,
`z.string().min(2)`, and the V1 role enum.  `none` models a thrown
`ZodError`, answered with a 400. -/
def registerSchemaParseV1 (b : RegisterBody) : Option RegisterData :=
  if 8 ≤ b.password.length ∧ 2 ≤ b.name.length then
    (parseRoleV1 b.role?).map (fun r => ⟨b.email, b.password, b.name, r⟩)
  else none

/-- `registerSchema.parse` of the refactored register controller: identical
except that the role enum omits ADMIN. -/
def registerSchemaParseV2 (b : RegisterBody) : Option RegisterData :=
  if 8 ≤ b.password.length ∧ 2 ≤ b.name.length then
    (parseRoleV2 b.role?).map (fun r => ⟨b.email, b.password, b.name, r⟩)
  else none

/-- Failure injection for the register flow: the source wraps the whole body
in one try/catch, so a rejection thrown by `prisma.refreshToken.create` or by
`setSession` lands in the catch block after earlier writes have committed. -/
inductive RegisterFailure where
  | noFailure
  | refreshCreateFails
  | sessionSetFails
deriving DecidableEq, Repr

/-- The `register` controller of register.controller.ts: validate, reject a
duplicate email with 409, hash the password, create the User row, issue the
token pair, persist the refresh token, write the session, answer 201.  Any
step throwing after validation is answered by the catch block with the
generic 500; there is no transaction and no rollback of earlier writes. -/
def register (st : AuthState) (b : RegisterBody) (traceId : String) (now : Nat)
    (secret : String) (failAt : RegisterFailure) : ApiResponse × AuthState :=
  match registerSchemaParseV1 b with
  | none => (⟨false, 400, "Validation failed", RespData.nullData, traceId⟩, st)
  | some d =>
    match findUserByEmail st d.email with
    | some _ =>
      (⟨false, 409, "Email already registered", RespData.nullData, traceId⟩, st)
    | none =>
      let u : User := ⟨"user-" ++ toString st.nextId, d.email,
                       bcryptHash d.password, d.name, d.role⟩
      let st1 : AuthState :=
        { st with users := st.users ++ [u], nextId := st.nextId + 1 }
      let pair := generateTokenPair ⟨u.id, u.email, u.role⟩ secret now
      match failAt with
      | RegisterFailure.refreshCreateFails =>
        (⟨false, 500, "Internal server error during registration",
          RespData.nullData, traceId⟩, st1)
      | RegisterFailure.sessionSetFails =>
        let st2 := insertRefresh st1 pair.2 u.id (now + refreshTtlSeconds)
        (⟨false, 500, "Internal server error during registration",
          RespData.nullData, traceId⟩, st2)
      | RegisterFailure.noFailure =>
        let st2 := insertRefresh st1 pair.2 u.id (now + refreshTtlSeconds)
        let st3 := setSessionOp st2 u.id ⟨u.email, u.role, now⟩
        (⟨true, 201, "User registered successfully",
          RespData.authPayload ⟨u.id, u.email, u.name, u.role⟩ pair.1 pair.2,
          traceId⟩, st3)

/-! ## Auth service: login -/

/-- The `login` controller: find the user by email; a missing user and a
failed `bcrypt.compare` both answer the same generic 401; on success issue a
pair, persist the refresh row, upsert the session, answer 200. -/
def login (st : AuthState) (email password : String) (traceId : String)
    (now : Nat) (secret : String) : ApiResponse × AuthState :=
  match findUserByEmail st email with
  | none =>
    (⟨false, 401, "Invalid email or password", RespData.nullData, traceId⟩, st)
  | some u =>
    if bcryptCompare password u.password then
      let pair := generateTokenPair ⟨u.id, u.email, u.role⟩ secret now
      let st1 := insertRefresh st pair.2 u.id (now + refreshTtlSeconds)
      let st2 := setSessionOp st1 u.id ⟨u.email, u.role, now⟩
      (⟨true, 200, "Login successful",
        RespData.authPayload ⟨u.id, u.email, u.name, u.role⟩ pair.1 pair.2,
        traceId⟩, st2)
    else
      (⟨false, 401, "Invalid email or password", RespData.nullData, traceId⟩, st)

/-! ## Auth service: refresh (token rotation) -/

/-- The observable outcome of a refresh attempt.  `crashed` stands for a
process failure between two separate writes (only reachable in the
non-transactional variant); `internalError` is the catch-all 500. -/
inductive RefreshOutcome where
  | invalidToken
  | notFoundRevoked
  | expiredRow
  | crashed
  | internalError
  | success (accessTok refreshTok : Jwt)
deriving DecidableEq, Repr

/-- The `refresh` controller of
`src/services/auth-service/src/controllers/refresh.controller.ts`: verify the
token, look the string up in the store, lazily delete an expired row, then
`await prisma.refreshToken.delete(...)` followed by a **separate**
`await prisma.refreshToken.create(...)` — two independent statements, no
transaction.  `crashBetween` injects a process failure after the delete has
committed and before the create runs. -/
def refreshV1 (st : AuthState) (tok : Jwt) (secret : String) (now : Nat)
    (crashBetween : Bool) : RefreshOutcome × AuthState :=
  match verifyToken tok secret now with
  | none => (RefreshOutcome.invalidToken, st)
  | some _ =>
    match findRefreshByToken st tok with
    | none => (RefreshOutcome.notFoundRevoked, st)
    | some row =>
      if row.expiresAt < now then
        (RefreshOutcome.expiredRow, deleteRefreshById st row.rowId)
      else
        match findUserById st row.userId with
        | none => (RefreshOutcome.internalError, st)
        | some u =>
          let pair := generateTokenPair ⟨u.id, u.email, u.role⟩ secret now
          let stDel := deleteRefreshById st row.rowId
          if crashBetween then (RefreshOutcome.crashed, stDel)
          else
            let stIns := insertRefresh stDel pair.2 u.id (now + refreshTtlSeconds)
            let stSess := setSessionOp stIns u.id ⟨u.email, u.role, now⟩
            (RefreshOutcome.success pair.1 pair.2, stSess)

/-- The refactored `refresh` controller: identical flow, except the delete
and the create are submitted together in `prisma.$transaction([...])` —
either both effects commit or neither does.  `txFails` injects a transaction
failure (rolled back, state unchanged, answered 500 by the catch block). -/
def refreshV2 (st : AuthState) (tok : Jwt) (secret : String) (now : Nat)
    (txFails : Bool) : RefreshOutcome × AuthState :=
  match verifyToken tok secret now with
  | none => (RefreshOutcome.invalidToken, st)
  | some _ =>
    match findRefreshByToken st tok with
    | none => (RefreshOutcome.notFoundRevoked, st)
    | some row =>
      if row.expiresAt < now then
        (RefreshOutcome.expiredRow, deleteRefreshById st row.rowId)
      else
        match findUserById st row.userId with
        | none => (RefreshOutcome.internalError, st)
        | some u =>
          let pair := generateTokenPair ⟨u.id, u.email, u.role⟩ secret now
          if txFails then (RefreshOutcome.internalError, st)
          else
            let stDel := deleteRefreshById st row.rowId
            let stIns := insertRefresh stDel pair.2 u.id (now + refreshTtlSeconds)
            let stSess := setSessionOp stIns u.id ⟨u.email, u.role, now⟩
            (RefreshOutcome.success pair.1 pair.2, stSess)

/-! ## Auth service: logout -/

/-- The `Authorization` header as the logout controller inspects it:
absent, present without the `Bearer ` scheme, or a bearer token. -/
inductive AuthHeader where
  | missing
  | malformed
  | bearer (tok : Jwt)
deriving DecidableEq, Repr

/-- The observable outcome of a logout attempt. -/
inductive LogoutOutcome where
  | missingHeader
  | invalidToken
  | success
deriving DecidableEq, Repr

/-- The `logout` controller: a missing or non-Bearer header answers 401; an
unverifiable token answers 401; otherwise every refresh-token row of the
verified user is deleted (`deleteMany`) and the session entry removed, 200.
No `type` check is performed on the verified payload. -/
def logout (st : AuthState) (h : AuthHeader) (secret : String) (now : Nat) :
    LogoutOutcome × AuthState :=
  match h with
  | AuthHeader.missing => (LogoutOutcome.missingHeader, st)
  | AuthHeader.malformed => (LogoutOutcome.missingHeader, st)
  | AuthHeader.bearer tok =>
    match verifyToken tok secret now with
    | none => (LogoutOutcome.invalidToken, st)
    | some p =>
      let st1 := deleteRefreshByUser st p.userId
      let st2 := deleteSessionOp st1 p.userId
      (LogoutOutcome.success, st2)

/-! ## Gateway: verification middleware and header injection -/

/-- `JWT_SECRET = process.env.JWT_SECRET || 'fallback-secret-key'` of the
gateway auth middleware: no validation, a hard-coded fallback. -/
def gatewayJwtSecret (envSecret : Option String) : String :=
  envSecret.getD "fallback-secret-key"

/-- The gateway's public-route allowlist. -/
def publicRoutes : List String := ["/auth/login", "/auth/register", "/health"]

/-- The per-request result of the gateway auth middleware. -/
inductive GatewayAuthResult where
  | passthrough
  | missingToken
  | invalidToken
  | authenticated (user : Payload)
deriving DecidableEq, Repr

/-- The gateway `authMiddleware`: skip public routes; 401 on a missing
token; otherwise `jwt.verify(token, JWT_SECRET)` with **no** `algorithms`
option (so jsonwebtoken's HMAC default list applies) and no check of the
decoded payload's `type` field; on success the decoded payload is attached
as `req.user`. -/
def authMiddleware (path : String) (token? : Option Jwt)
    (envSecret : Option String) (now : Nat) : GatewayAuthResult :=
  if publicRoutes.any (fun r => r.data.isPrefixOf path.data) then
    GatewayAuthResult.passthrough
  else
    match token? with
    | none => GatewayAuthResult.missingToken
    | some tok =>
      match jwtVerify tok (gatewayJwtSecret envSecret) none now with
      | some u => GatewayAuthResult.authenticated u
      | none => GatewayAuthResult.invalidToken

/-- A header map; later `setHeader` calls overwrite earlier entries of the
same name, exactly as Node's `ClientRequest.setHeader` does. -/
abbrev Headers := List (String × String)

/-- `proxyReq.setHeader(k, v)`: replace any existing value of `k`. -/
def setHeader (hs : Headers) (k v : String) : Headers :=
  (k, v) :: hs.filter (fun p => p.1 != k)

/-- Look a header up. -/
def getHeader (hs : Headers) (k : String) : Option String :=
  (hs.find? (fun p => p.1 == k)).map Prod.snd

/-- The `onProxyReq` hook of the protected proxies in
`src/apps/api-gateway/src/index.ts`: the proxied request starts from the
client's headers; when the middleware attached a verified user, `x-user-id`
and `x-user-role` are set from its claims; `x-trace-id` is set from the
request-scoped trace id. -/
def onProxyReqProtected (user? : Option Payload) (traceId? : Option String)
    (clientHeaders : Headers) : Headers :=
  let h1 :=
    match user? with
    | some u => setHeader (setHeader clientHeaders "x-user-id" u.userId)
                  "x-user-role" u.role.str
    | none => clientHeaders
  match traceId? with
  | some t => setHeader h1 "x-trace-id" t
  | none => h1

/-! ## Downstream services: header-trust middleware -/

/-- The result of the downstream `requireAuth` middleware. -/
inductive MwResult where
  | unauthorized (resp : ApiResponse)
  | proceed (userId : String) (userRole : String)
deriving DecidableEq, Repr

/-- The downstream `requireAuth` middleware: a missing (or empty, JS
falsiness) `x-user-id` header is itself a 401; otherwise the identity headers
are copied into `res.locals` and the request proceeds.  The middleware takes
no secret and performs no token verification whatsoever. -/
def requireAuth (headers : Headers) : MwResult :=
  let traceId := (getHeader headers "x-trace-id").getD ""
  let userId := (getHeader headers "x-user-id").getD ""
  if userId == "" then
    MwResult.unauthorized
      ⟨false, 401, "Unauthorized — missing authentication", RespData.nullData,
       traceId⟩
  else
    MwResult.proceed userId ((getHeader headers "x-user-role").getD "")

/-- The `getInstructorCourses` handler of
`src/services/course-service/src/controllers/course.controller.ts`: it reads
`x-user-id` directly via `getInstructorId`, which throws when the header is
absent; the surrounding catch block answers that throw with a 500. -/
def getInstructorCourses (headers : Headers) (traceId : String) : ApiResponse :=
  let userId := (getHeader headers "x-user-id").getD ""
  if userId == "" then
    ⟨false, 500, "Failed to fetch courses", RespData.nullData, traceId⟩
  else
    ⟨true, 200, "Instructor courses fetched", RespData.coursesFor userId,
     traceId⟩

/-! ## Startup configuration validation -/

/-- The `JWT_SECRET` member of `jwtEnvSchema` in
`src/packages/env-validator/src/index.ts`:
`z.string().min(32, 'JWT_SECRET must be at least 32 characters')`.
`none` models the `safeParse` failure that makes `validateEnv` throw, so the
auth service (which runs `validateAuthServiceEnv()` at module load) fails to
start. -/
def jwtEnvSecretParse : Option String → Option String
  | none => none
  | some s => if 32 ≤ s.length then some s else none

/-! ## Concrete fixtures used by counterexamples and witnesses -/

/-- A 32-character signing secret. -/
def secret32 : String := "0123456789abcdef0123456789abcdef"

/-- Claims of the fixture user. -/
def aliceClaims : Claims := ⟨"u1", "alice@example.com", Role.STUDENT⟩

/-- The fixture user row. -/
def aliceUser : User :=
  ⟨"u1", "alice@example.com", bcryptHash "Password123", "Alice", Role.STUDENT⟩

/-- A refresh token issued to the fixture user at time 0. -/
def aliceRefreshTok : Jwt := generateRefreshToken aliceClaims secret32 0

/-- An access token issued to the fixture user at time 0. -/
def aliceAccessTok : Jwt := generateAccessToken aliceClaims secret32 0

/-- A store holding the fixture user and one live refresh row for her. -/
def st0 : AuthState :=
  ⟨[aliceUser], [⟨1, aliceRefreshTok, "u1", refreshTtlSeconds⟩],
   [("u1", ⟨"alice@example.com", Role.STUDENT, 0⟩)], 2⟩

/-- A token signed with the shared secret but declaring HS384. -/
def hs384Tok : Jwt := ⟨aliceClaims, some TokenKind.access, Alg.HS384, secret32, 900⟩

/-- An unsigned token declaring the `none` algorithm. -/
def noneTok : Jwt := ⟨aliceClaims, some TokenKind.access, Alg.noneAlg, secret32, 900⟩

/-- An access token signed with the gateway's hard-coded fallback secret. -/
def fallbackTok : Jwt :=
  ⟨aliceClaims, some TokenKind.access, Alg.HS256, "fallback-secret-key", 900⟩

/-- A register body requesting the administrator role. -/
def adminBody : RegisterBody :=
  ⟨"alice@example.com", "Password123", "Alice", some "ADMIN"⟩

/-- The empty store. -/
def emptyState : AuthState := ⟨[], [], [], 0⟩

/-! ## Helper lemmas -/

/-- A successful `jwt.verify` returns exactly the token's own payload. -/
theorem jwtVerify_eq_some_payload {tok : Jwt} {s : String}
    {algs : Option (List Alg)} {now : Nat} {p : Payload}
    (h : jwtVerify tok s algs now = some p) : p = tok.payload := by
  unfold jwtVerify at h
  split at h
  · simp at h
  · split at h
    · exact (Option.some.inj h).symm
    · simp at h

/-- The gateway middleware only authenticates a request as the payload of
the presented token itself. -/
theorem authMiddleware_eq_authenticated {path : String} {tok : Jwt}
    {env : Option String} {now : Nat} {u : Payload}
    (h : authMiddleware path (some tok) env now =
      GatewayAuthResult.authenticated u) : u = tok.payload := by
  unfold authMiddleware at h
  split at h
  · simp at h
  · dsimp only at h
    cases heq : jwtVerify tok (gatewayJwtSecret env) none now with
    | none => rw [heq] at h; simp at h
    | some p =>
      rw [heq] at h
      have hpu : p = u := by
        injection h
      exact hpu ▸ jwtVerify_eq_some_payload heq

/-- Reading back the header just set. -/
theorem getHeader_setHeader_same (hs : Headers) (k v : String) :
    getHeader (setHeader hs k v) k = some v := by
  cases hkk : (k == k) with
  | false => simp at hkk
  | true => simp [getHeader, setHeader, List.find?, hkk]

/-- `find?` for one key ignores the removal of entries of another key. -/
theorem find?_key_filter_ne (hs : Headers) (k k' : String) (h : k' ≠ k) :
    (hs.filter (fun p => p.1 != k)).find? (fun p => p.1 == k') =
      hs.find? (fun p => p.1 == k') := by
  induction hs with
  | nil => rfl
  | cons a t ih =>
    by_cases hk : a.1 = k
    · have h1 : (a.1 != k) = false := by simp [hk]
      have h2 : (a.1 == k') = false := by
        simp only [beq_eq_false_iff_ne, ne_eq, hk]
        exact fun e => h e.symm
      simp [List.filter_cons, h1, List.find?, h2, ih]
    · have h1 : (a.1 != k) = true := by simp [hk]
      by_cases hk' : a.1 = k'
      · have h2 : (a.1 == k') = true := by simp [hk']
        simp [List.filter_cons, h1, List.find?, h2]
      · have h2 : (a.1 == k') = false := by simp [hk']
        simp [List.filter_cons, h1, List.find?, h2, ih]

/-- Setting one header leaves lookups of other headers unchanged. -/
theorem getHeader_setHeader_ne (hs : Headers) (k v k' : String) (h : k' ≠ k) :
    getHeader (setHeader hs k v) k' = getHeader hs k' := by
  have hkk : (k == k') = false := by
    simp only [beq_eq_false_iff_ne, ne_eq]
    exact fun e => h e.symm
  simp [getHeader, setHeader, List.find?, hkk, find?_key_filter_ne hs k k' h]

/-- `find?` over an append whose first part contains no match. -/
theorem find?_append_of_none {α : Type} (p : α → Bool) (l1 l2 : List α)
    (h : l1.find? p = none) : (l1 ++ l2).find? p = l2.find? p := by
  induction l1 with
  | nil => rfl
  | cons a t ih =>
    cases ha : p a with
    | true => simp [List.find?, ha] at h
    | false =>
      rw [List.find?] at h
      rw [List.cons_append, List.find?]
      simp only [ha] at h ⊢
      exact ih h

/-! ## Claim theorems -/

/-- C1: the claim states that the deletion of the old refresh-token row and
the insertion of the new one are performed as a single atomic all-or-nothing
transaction.  In `src/services/auth-service/src/controllers/refresh.controller.ts`
they are two separate sequential `await` statements with no transaction: on
the fixture store — where verification, the store lookup and the stored-expiry
check all pass — a process failure between the two statements leaves the
store with no refresh row at all for the user, neither the old token nor the
new one, so the user can no longer refresh.  The transactional variant of the
controller (`prisma.$transaction([...])`) leaves the store unchanged under a
failure of its transaction. -/
theorem C1_rotation_not_atomic :
    (verifyToken aliceRefreshTok secret32 100).isSome = true ∧
    (findRefreshByToken st0 aliceRefreshTok).isSome = true ∧
    (refreshV1 st0 aliceRefreshTok secret32 100 true).1 = RefreshOutcome.crashed ∧
    (refreshV1 st0 aliceRefreshTok secret32 100 true).2.refreshTokens = [] ∧
    (refreshV2 st0 aliceRefreshTok secret32 100 true).2 = st0 := by
  decide

/-- C2: the claim states that a register request can never create an
administrator.  The `registerSchema` of
`src/services/auth-service/src/controllers/register.controller.ts` accepts
`role: 'ADMIN'` from the request body, so self-registration with that body
answers 201 and the store then contains an ADMIN user; the refactored
register schema rejects the same body, and both schemas default a missing
role to STUDENT. -/
theorem C2_admin_self_registration_possible :
    (register emptyState adminBody "t" 0 secret32 RegisterFailure.noFailure).1.code
      = 201 ∧
    ((register emptyState adminBody "t" 0 secret32 RegisterFailure.noFailure).2.users.any
      (fun u => u.role == Role.ADMIN)) = true ∧
    registerSchemaParseV2 adminBody = none ∧
    parseRoleV1 none = some Role.STUDENT ∧
    parseRoleV2 none = some Role.STUDENT := by
  decide

/-- C3 counterexample: the claim states that a token whose `type` field is
'refresh' is rejected where an access-kind token is required.  The fixture
refresh token (type field 'refresh') is accepted by the gateway verification
middleware, which attaches it as the request's user, and by logout, which
completes successfully on it: no consumer inspects the `type` field. -/
theorem C3_refresh_kind_accepted_as_access :
    aliceRefreshTok.type = some TokenKind.refresh ∧
    authMiddleware "/course/abc" (some aliceRefreshTok) (some secret32) 100 =
      GatewayAuthResult.authenticated aliceRefreshTok.payload ∧
    (logout st0 (AuthHeader.bearer aliceRefreshTok) secret32 100).1 =
      LogoutOutcome.success := by
  decide

/-- C3 amended: an access-kind token presented to refresh is rejected with
the 401 "not found or revoked" — but only because its string is not a row of
the refresh-token store (only refresh halves are persisted), not through a
type check; and logout accepts any token that verifies, whatever its `type`
field, since no consumer inspects it. -/
theorem C3_amended_kind_enforcement
    (st st2 : AuthState) (atok tok2 : Jwt) (secret : String) (now : Nat)
    (flag : Bool) (p p2 : Payload)
    (hver : verifyToken atok secret now = some p)
    (hnotstored : findRefreshByToken st atok = none)
    (hver2 : verifyToken tok2 secret now = some p2) :
    refreshV1 st atok secret now flag = (RefreshOutcome.notFoundRevoked, st) ∧
    refreshV2 st atok secret now flag = (RefreshOutcome.notFoundRevoked, st) ∧
    (logout st2 (AuthHeader.bearer tok2) secret now).1 = LogoutOutcome.success := by
  refine ⟨?_, ?_, ?_⟩
  · simp [refreshV1, hver, hnotstored]
  · simp [refreshV2, hver, hnotstored]
  · simp [logout, hver2]

/-- C3 witness: the amended theorem at the fixture access token (its string
is not persisted in the fixture store) and the fixture refresh token. -/
theorem C3_amended_kind_enforcement_witness :
    refreshV1 st0 aliceAccessTok secret32 100 false =
      (RefreshOutcome.notFoundRevoked, st0) ∧
    refreshV2 st0 aliceAccessTok secret32 100 false =
      (RefreshOutcome.notFoundRevoked, st0) ∧
    (logout st0 (AuthHeader.bearer aliceRefreshTok) secret32 100).1 =
      LogoutOutcome.success :=
  C3_amended_kind_enforcement st0 st0 aliceAccessTok aliceRefreshTok secret32 100
    false aliceAccessTok.payload aliceRefreshTok.payload
    (by decide) (by decide) (by decide)

/-- C4: whenever the gateway middleware authenticates a request, the identity
headers the downstream service sees are computed from the verified token's
claims alone: whatever `x-user-id` / `x-user-role` values the client put in
its own headers, the proxied request carries the gateway's values, and two
requests with the same token but different client headers carry identical
identity headers. -/
theorem C4_identity_headers_from_token_only
    (path : String) (tok : Jwt) (env : Option String) (now : Nat)
    (u : Payload) (tr : String) (h1 h2 : Headers)
    (hauth : authMiddleware path (some tok) env now =
      GatewayAuthResult.authenticated u) :
    getHeader (onProxyReqProtected (some u) (some tr) h1) "x-user-id" =
      some tok.claims.userId ∧
    getHeader (onProxyReqProtected (some u) (some tr) h2) "x-user-id" =
      some tok.claims.userId ∧
    getHeader (onProxyReqProtected (some u) (some tr) h1) "x-user-role" =
      some tok.claims.role.str ∧
    getHeader (onProxyReqProtected (some u) (some tr) h2) "x-user-role" =
      some tok.claims.role.str := by
  have hu : u = tok.payload := authMiddleware_eq_authenticated hauth
  subst hu
  have hid : ∀ hs : Headers,
      getHeader (onProxyReqProtected (some tok.payload) (some tr) hs) "x-user-id" =
        some tok.claims.userId := by
    intro hs
    unfold onProxyReqProtected
    dsimp only
    rw [getHeader_setHeader_ne _ _ _ _ (by decide),
        getHeader_setHeader_ne _ _ _ _ (by decide),
        getHeader_setHeader_same]
    rfl
  have hrole : ∀ hs : Headers,
      getHeader (onProxyReqProtected (some tok.payload) (some tr) hs) "x-user-role" =
        some tok.claims.role.str := by
    intro hs
    unfold onProxyReqProtected
    dsimp only
    rw [getHeader_setHeader_ne _ _ _ _ (by decide), getHeader_setHeader_same]
    rfl
  exact ⟨hid h1, hid h2, hrole h1, hrole h2⟩

/-- C4 witness: the theorem at the fixture access token and two header maps
both carrying forged identity headers. -/
theorem C4_identity_headers_witness :
    getHeader (onProxyReqProtected (some aliceAccessTok.payload) (some "t0")
      [("x-user-id", "forged-admin")]) "x-user-id" = some "u1" ∧
    getHeader (onProxyReqProtected (some aliceAccessTok.payload) (some "t0")
      [("x-user-id", "other-forgery"), ("x-user-role", "ADMIN")]) "x-user-id" =
      some "u1" ∧
    getHeader (onProxyReqProtected (some aliceAccessTok.payload) (some "t0")
      [("x-user-id", "forged-admin")]) "x-user-role" = some "STUDENT" ∧
    getHeader (onProxyReqProtected (some aliceAccessTok.payload) (some "t0")
      [("x-user-id", "other-forgery"), ("x-user-role", "ADMIN")]) "x-user-role" =
      some "STUDENT" :=
  C4_identity_headers_from_token_only "/course/abc" aliceAccessTok (some secret32)
    100 aliceAccessTok.payload "t0" [("x-user-id", "forged-admin")]
    [("x-user-id", "other-forgery"), ("x-user-role", "ADMIN")] (by decide)

/-- C5: a login whose email has no user and a login whose user exists but
whose password fails the bcrypt comparison produce the same generic 401
response — identical envelopes given the same trace id. -/
theorem C5_login_enumeration_resistant
    (st st2 : AuthState) (e pw e2 pw2 tid : String) (now now2 : Nat)
    (secret secret2 : String) (u : User)
    (h1 : findUserByEmail st e = none)
    (h2 : findUserByEmail st2 e2 = some u)
    (h3 : bcryptCompare pw2 u.password = false) :
    (login st e pw tid now secret).1 = (login st2 e2 pw2 tid now2 secret2).1 ∧
    (login st e pw tid now secret).1 =
      ⟨false, 401, "Invalid email or password", RespData.nullData, tid⟩ := by
  constructor
  · simp [login, h1, h2, h3]
  · simp [login, h1]

/-- C5 witness: a login for an absent email against the fixture store and a
login for the fixture user with a wrong password. -/
theorem C5_login_enumeration_witness :
    (login st0 "bob@example.com" "whatever1" "t0" 50 secret32).1 =
      (login st0 "alice@example.com" "WrongPass1" "t0" 60 secret32).1 ∧
    (login st0 "bob@example.com" "whatever1" "t0" 50 secret32).1 =
      ⟨false, 401, "Invalid email or password", RespData.nullData, "t0"⟩ :=
  C5_login_enumeration_resistant st0 st0 "bob@example.com" "whatever1"
    "alice@example.com" "WrongPass1" "t0" 50 60 secret32 secret32 aliceUser
    (by decide) (by decide) (by decide)

/-- Claims of a second fixture user. -/
def bobClaims : Claims := ⟨"u2", "bob@example.com", Role.INSTRUCTOR⟩

/-- The second fixture user row. -/
def bobUser : User :=
  ⟨"u2", "bob@example.com", bcryptHash "Secret456", "Bob", Role.INSTRUCTOR⟩

/-- A refresh token issued to the second fixture user at time 0. -/
def bobRefreshTok : Jwt := generateRefreshToken bobClaims secret32 0

/-- A token signed with a different secret (verification fails). -/
def wrongKeyTok : Jwt :=
  ⟨aliceClaims, some TokenKind.access, Alg.HS256, "another-secret-another-secret--x", 900⟩

/-- A two-user store with one live refresh row per user. -/
def st2u : AuthState :=
  ⟨[aliceUser, bobUser],
   [⟨1, aliceRefreshTok, "u1", refreshTtlSeconds⟩,
    ⟨2, bobRefreshTok, "u2", refreshTtlSeconds⟩],
   [("u1", ⟨"alice@example.com", Role.STUDENT, 0⟩),
    ("u2", ⟨"bob@example.com", Role.INSTRUCTOR, 0⟩)], 3⟩

/-- C6: a logout whose bearer token verifies to payload `p` succeeds and,
afterwards, the store holds no refresh row of that user (any row still
present belongs to someone else), the session entry is gone, and any refresh
token of that user that was stored before the logout — and still verifies —
is answered by both refresh controller variants with the 401 "not found or
revoked", leaving the state untouched.  A missing bearer header, or a token
that fails verification, is answered 401 with no state change.  The
`hnodup` hypothesis is the store's unique-constraint on the token column. -/
theorem C6_logout_revokes_all_refresh_tokens
    (st : AuthState) (tok tok2 : Jwt) (secret : String) (now now2 : Nat)
    (p q : Payload) (flag : Bool) (r r2 : RefreshRow)
    (hver : verifyToken tok secret now = some p)
    (hnodup : st.refreshTokens.Pairwise (fun a b => a.token ≠ b.token))
    (hr : r ∈ st.refreshTokens) (hru : r.userId = p.userId)
    (hq : verifyToken r.token secret now2 = some q)
    (hr2 : r2 ∈ ((logout st (AuthHeader.bearer tok) secret now).2).refreshTokens)
    (hbad : verifyToken tok2 secret now = none) :
    (logout st (AuthHeader.bearer tok) secret now).1 = LogoutOutcome.success ∧
    r2.userId ≠ p.userId ∧
    getSessionOp ((logout st (AuthHeader.bearer tok) secret now).2) p.userId
      = none ∧
    refreshV1 ((logout st (AuthHeader.bearer tok) secret now).2) r.token secret
        now2 flag =
      (RefreshOutcome.notFoundRevoked,
        (logout st (AuthHeader.bearer tok) secret now).2) ∧
    refreshV2 ((logout st (AuthHeader.bearer tok) secret now).2) r.token secret
        now2 flag =
      (RefreshOutcome.notFoundRevoked,
        (logout st (AuthHeader.bearer tok) secret now).2) ∧
    logout st AuthHeader.missing secret now = (LogoutOutcome.missingHeader, st) ∧
    logout st (AuthHeader.bearer tok2) secret now =
      (LogoutOutcome.invalidToken, st) := by
  have hlo : logout st (AuthHeader.bearer tok) secret now =
      (LogoutOutcome.success,
        deleteSessionOp (deleteRefreshByUser st p.userId) p.userId) := by
    simp [logout, hver]
  have hrows : ((logout st (AuthHeader.bearer tok) secret now).2).refreshTokens =
      st.refreshTokens.filter (fun x => x.userId != p.userId) := by
    rw [hlo]
    rfl
  have hfound : findRefreshByToken
      ((logout st (AuthHeader.bearer tok) secret now).2) r.token = none := by
    unfold findRefreshByToken
    rw [hrows]
    rw [List.find?_eq_none]
    intro x hx
    rw [List.mem_filter] at hx
    intro htok
    have hxne : x.userId ≠ p.userId := by
      have := hx.2
      simpa using this
    have hxr : x ≠ r := by
      intro hcontra
      exact hxne (hcontra ▸ hru)
    have htokeq : x.token = r.token := by simpa using htok
    have hsymm : Symmetric (fun a b : RefreshRow => a.token ≠ b.token) :=
      fun a b hab => fun e => hab e.symm
    exact hnodup.forall hsymm hx.1 hr hxr htokeq
  refine ⟨by rw [hlo], ?_, ?_, ?_, ?_, by simp [logout], by simp [logout, hbad]⟩
  · rw [hrows, List.mem_filter] at hr2
    have := hr2.2
    simpa using this
  · rw [hlo]
    unfold getSessionOp deleteSessionOp deleteRefreshByUser
    dsimp only
    rw [show (List.find? (fun pr => pr.1 == p.userId)
        (List.filter (fun pr => pr.1 != p.userId) st.sessions)) = none from ?_]
    · rfl
    · rw [List.find?_eq_none]
      intro x hx
      rw [List.mem_filter] at hx
      have hxne : x.1 ≠ p.userId := by
        have := hx.2
        simpa using this
      simpa using hxne
  · simp [refreshV1, hq, hfound]
  · simp [refreshV2, hq, hfound]

/-- C6 witness: the theorem at the two-user fixture store, logging Alice out
with her access token and then replaying her stored refresh token. -/
theorem C6_logout_revokes_witness :
    (logout st2u (AuthHeader.bearer aliceAccessTok) secret32 100).1 =
      LogoutOutcome.success ∧
    (⟨2, bobRefreshTok, "u2", refreshTtlSeconds⟩ : RefreshRow).userId ≠
      aliceAccessTok.payload.userId ∧
    getSessionOp ((logout st2u (AuthHeader.bearer aliceAccessTok) secret32 100).2)
      aliceAccessTok.payload.userId = none ∧
    refreshV1 ((logout st2u (AuthHeader.bearer aliceAccessTok) secret32 100).2)
        (⟨1, aliceRefreshTok, "u1", refreshTtlSeconds⟩ : RefreshRow).token secret32
        200 false =
      (RefreshOutcome.notFoundRevoked,
        (logout st2u (AuthHeader.bearer aliceAccessTok) secret32 100).2) ∧
    refreshV2 ((logout st2u (AuthHeader.bearer aliceAccessTok) secret32 100).2)
        (⟨1, aliceRefreshTok, "u1", refreshTtlSeconds⟩ : RefreshRow).token secret32
        200 false =
      (RefreshOutcome.notFoundRevoked,
        (logout st2u (AuthHeader.bearer aliceAccessTok) secret32 100).2) ∧
    logout st2u AuthHeader.missing secret32 100 =
      (LogoutOutcome.missingHeader, st2u) ∧
    logout st2u (AuthHeader.bearer wrongKeyTok) secret32 100 =
      (LogoutOutcome.invalidToken, st2u) :=
  C6_logout_revokes_all_refresh_tokens st2u aliceAccessTok wrongKeyTok secret32
    100 200 aliceAccessTok.payload aliceRefreshTok.payload false
    ⟨1, aliceRefreshTok, "u1", refreshTtlSeconds⟩
    ⟨2, bobRefreshTok, "u2", refreshTtlSeconds⟩
    (by decide) (by decide) (by decide) (by decide) (by decide) (by decide)
    (by decide)

/-- C7 counterexample: the claim states that every verification in the
system pins HS256 and rejects any other declared algorithm.  The gateway
middleware calls `jwt.verify` with no `algorithms` option, so jsonwebtoken's
HMAC default applies: a token declaring HS384 under the shared secret is
accepted and authenticated. -/
theorem C7_gateway_accepts_hs384 :
    hs384Tok.alg ≠ Alg.HS256 ∧
    authMiddleware "/course/a" (some hs384Tok) (some secret32) 100 =
      GatewayAuthResult.authenticated hs384Tok.payload := by
  decide

/-- C7 amended: the auth-service `verifyToken` pins `algorithms: ['HS256']`
and rejects every token declaring another algorithm, including `none`; the
gateway middleware does reject the `none` algorithm (a secret is supplied)
but accepts any HMAC variant. -/
theorem C7_amended_algorithm_pinning
    (tok tokg : Jwt) (secret : String) (env : Option String) (now : Nat)
    (path : String) (u : Payload)
    (halg : tok.alg ≠ Alg.HS256)
    (hnone : tokg.alg = Alg.noneAlg) :
    verifyToken tok secret now = none ∧
    authMiddleware path (some tokg) env now ≠
      GatewayAuthResult.authenticated u := by
  constructor
  · unfold verifyToken jwtVerify
    split
    · rfl
    · have hmem : ¬ (tok.alg ∈ (some [Alg.HS256]).getD defaultHmacAlgs ∧
          tok.key = secret ∧ now < tok.exp) := by
        intro hand
        have := hand.1
        simp at this
        exact halg this
      rw [if_neg hmem]
  · intro hcontra
    unfold authMiddleware at hcontra
    split at hcontra
    · simp at hcontra
    · dsimp only at hcontra
      have hv : jwtVerify tokg (gatewayJwtSecret env) none now = none := by
        unfold jwtVerify
        simp [hnone]
      rw [hv] at hcontra
      simp at hcontra

/-- C7 witness: the amended theorem at the HS384 token and an unsigned
`none`-algorithm token. -/
theorem C7_amended_algorithm_pinning_witness :
    verifyToken hs384Tok secret32 100 = none ∧
    authMiddleware "/course/a" (some noneTok) none 100 ≠
      GatewayAuthResult.authenticated noneTok.payload :=
  C7_amended_algorithm_pinning hs384Tok noneTok secret32 none 100 "/course/a"
    noneTok.payload (by decide) (by decide)

/-- C8 counterexample: the claim states that a protected downstream route
reached without `x-user-id` answers 401.  The course-service
`getInstructorCourses` handler reads the header directly through
`getInstructorId`, which throws, and the catch block answers 500. -/
theorem C8_course_handler_answers_500_without_header :
    (getInstructorCourses [] "t").code = 500 ∧
    ¬ (getInstructorCourses [] "t").code = 401 := by
  decide

/-- C8 amended: the downstream `requireAuth` middleware answers 401 whenever
`x-user-id` is absent — unchanged even when a bearer `authorization` header
with a token is attached, since the middleware never verifies tokens — while
the course-controller handlers that read the header directly answer 500. -/
theorem C8_amended_downstream_requires_header
    (headers : Headers) (tid v : String)
    (hmiss : getHeader headers "x-user-id" = none) :
    requireAuth headers = MwResult.unauthorized
      ⟨false, 401, "Unauthorized — missing authentication", RespData.nullData,
       (getHeader headers "x-trace-id").getD ""⟩ ∧
    requireAuth (setHeader headers "authorization" v) = MwResult.unauthorized
      ⟨false, 401, "Unauthorized — missing authentication", RespData.nullData,
       (getHeader headers "x-trace-id").getD ""⟩ ∧
    (getInstructorCourses headers tid).code = 500 := by
  refine ⟨?_, ?_, ?_⟩
  · simp [requireAuth, hmiss]
  · have h2 : getHeader (setHeader headers "authorization" v) "x-user-id" = none := by
      rw [getHeader_setHeader_ne _ _ _ _ (by decide)]
      exact hmiss
    have h3 : getHeader (setHeader headers "authorization" v) "x-trace-id" =
        getHeader headers "x-trace-id" :=
      getHeader_setHeader_ne _ _ _ _ (by decide)
    simp [requireAuth, h2, h3]
  · simp [getInstructorCourses, hmiss]

/-- C8 witness: the amended theorem at a header map carrying only a trace id,
with a bearer token offered in the `authorization` header. -/
theorem C8_amended_downstream_witness :
    requireAuth [("x-trace-id", "t0")] = MwResult.unauthorized
      ⟨false, 401, "Unauthorized — missing authentication", RespData.nullData,
       "t0"⟩ ∧
    requireAuth (setHeader [("x-trace-id", "t0")] "authorization" "Bearer xyz") =
      MwResult.unauthorized
      ⟨false, 401, "Unauthorized — missing authentication", RespData.nullData,
       "t0"⟩ ∧
    (getInstructorCourses [("x-trace-id", "t0")] "t0").code = 500 :=
  C8_amended_downstream_requires_header [("x-trace-id", "t0")] "t0" "Bearer xyz"
    (by decide)

/-- C9 counterexample: the claim states that every process verifying tokens
validates the signing secret eagerly and fails to start otherwise.  With no
`JWT_SECRET` in its environment the gateway substitutes the hard-coded
19-character fallback and keeps serving: its middleware authenticates tokens
signed with that fallback secret. -/
theorem C9_gateway_runs_with_fallback_secret :
    gatewayJwtSecret none = "fallback-secret-key" ∧
    ("fallback-secret-key").length < 32 ∧
    authMiddleware "/course/a" (some fallbackTok) none 100 =
      GatewayAuthResult.authenticated fallbackTok.payload := by
  decide

/-- C9 amended: the auth service validates `JWT_SECRET` at configuration
load — a missing value or one shorter than 32 characters makes
`validateAuthServiceEnv` fail, so the auth service fails to start, and only a
value of at least 32 characters passes through; the gateway performs no such
validation and falls back to its hard-coded sub-32-character default. -/
theorem C9_amended_eager_secret_validation (s t : String)
    (hs : s.length < 32) (ht : 32 ≤ t.length) :
    jwtEnvSecretParse (some s) = none ∧
    jwtEnvSecretParse none = none ∧
    jwtEnvSecretParse (some t) = some t ∧
    gatewayJwtSecret none = "fallback-secret-key" ∧
    ("fallback-secret-key").length < 32 := by
  refine ⟨?_, rfl, ?_, rfl, by decide⟩
  · simp [jwtEnvSecretParse, Nat.not_le.mpr hs]
  · simp [jwtEnvSecretParse, ht]

/-- C9 witness: the amended theorem at a short and a 32-character secret. -/
theorem C9_amended_eager_secret_validation_witness :
    jwtEnvSecretParse (some "short") = none ∧
    jwtEnvSecretParse none = none ∧
    jwtEnvSecretParse (some secret32) = some secret32 ∧
    gatewayJwtSecret none = "fallback-secret-key" ∧
    ("fallback-secret-key").length < 32 :=
  C9_amended_eager_secret_validation "short" secret32 (by decide) (by decide)

/-- A user just appended to the table is the one an email lookup finds, when
no earlier row carries that email. -/
theorem findUser_append (stu : List User) (u : User) (e : String)
    (h : stu.find? (fun x => x.email == e) = none) (hu : u.email = e) :
    (stu ++ [u]).find? (fun x => x.email == e) = some u := by
  rw [find?_append_of_none _ _ _ h]
  simp [List.find?, hu]

/-- C10: registration is not atomic on failure.  When the schema accepts the
body and the email is new, but persisting the refresh-token row or writing
the session-cache entry throws, the catch block answers the generic 500 —
yet the User row created beforehand stays in the store, so an identical
retry is answered 409 "Email already registered" without state change,
although the client never received a success. -/
theorem C10_registration_not_rolled_back
    (st : AuthState) (b : RegisterBody) (tid tid2 : String) (now now2 : Nat)
    (secret secret2 : String) (failAt : RegisterFailure) (d : RegisterData)
    (hfail : failAt ≠ RegisterFailure.noFailure)
    (hparse : registerSchemaParseV1 b = some d)
    (hnew : findUserByEmail st d.email = none) :
    (register st b tid now secret failAt).1.code = 500 ∧
    (register st b tid now secret failAt).1.success = false ∧
    (findUserByEmail ((register st b tid now secret failAt).2) d.email).isSome
      = true ∧
    (register ((register st b tid now secret failAt).2) b tid2 now2 secret2
        RegisterFailure.noFailure).1.code = 409 ∧
    (register ((register st b tid now secret failAt).2) b tid2 now2 secret2
        RegisterFailure.noFailure).2 = (register st b tid now secret failAt).2 := by
  have hfind1 : ∀ rest : List RefreshRow, ∀ sess : List (String × Session),
      ∀ n : Nat,
      findUserByEmail
        ⟨st.users ++ [⟨"user-" ++ toString st.nextId, d.email,
          bcryptHash d.password, d.name, d.role⟩], rest, sess, n⟩ d.email =
        some ⟨"user-" ++ toString st.nextId, d.email, bcryptHash d.password,
          d.name, d.role⟩ := by
    intro rest sess n
    unfold findUserByEmail at hnew ⊢
    exact findUser_append _ _ _ hnew rfl
  cases failAt with
  | noFailure => exact absurd rfl hfail
  | refreshCreateFails =>
    refine ⟨?_, ?_, ?_, ?_, ?_⟩ <;>
      simp [register, hparse, hnew, hfind1]
  | sessionSetFails =>
    refine ⟨?_, ?_, ?_, ?_, ?_⟩ <;>
      simp [register, insertRefresh, hparse, hnew, hfind1]

/-- C10 witness: a registration against the empty store whose refresh-row
insert fails, then an identical retry. -/
theorem C10_registration_not_rolled_back_witness :
    (register emptyState ⟨"alice@example.com", "Password123", "Alice", none⟩
        "t0" 0 secret32 RegisterFailure.refreshCreateFails).1.code = 500 ∧
    (register emptyState ⟨"alice@example.com", "Password123", "Alice", none⟩
        "t0" 0 secret32 RegisterFailure.refreshCreateFails).1.success = false ∧
    (findUserByEmail ((register emptyState
        ⟨"alice@example.com", "Password123", "Alice", none⟩
        "t0" 0 secret32 RegisterFailure.refreshCreateFails).2)
      (⟨"alice@example.com", "Password123", "Alice", Role.STUDENT⟩ :
        RegisterData).email).isSome = true ∧
    (register ((register emptyState
        ⟨"alice@example.com", "Password123", "Alice", none⟩
        "t0" 0 secret32 RegisterFailure.refreshCreateFails).2)
        ⟨"alice@example.com", "Password123", "Alice", none⟩ "t1" 5 secret32
        RegisterFailure.noFailure).1.code = 409 ∧
    (register ((register emptyState
        ⟨"alice@example.com", "Password123", "Alice", none⟩
        "t0" 0 secret32 RegisterFailure.refreshCreateFails).2)
        ⟨"alice@example.com", "Password123", "Alice", none⟩ "t1" 5 secret32
        RegisterFailure.noFailure).2 =
      (register emptyState ⟨"alice@example.com", "Password123", "Alice", none⟩
        "t0" 0 secret32 RegisterFailure.refreshCreateFails).2 :=
  C10_registration_not_rolled_back emptyState
    ⟨"alice@example.com", "Password123", "Alice", none⟩ "t0" "t1" 0 5 secret32
    secret32 RegisterFailure.refreshCreateFails
    ⟨"alice@example.com", "Password123", "Alice", Role.STUDENT⟩
    (by decide) (by decide) (by decide)

end LMS

